import Mathlib

/-!
A shallow embedding of `src/BaseBuilder.js` from the tcomb-builder repository.

The builder wraps an Immutable.js map holding: an ordered mapping of child
field builders, an optional flag, a lazily-invoked template-provider callback,
a lazy template provider, a deferred type constructor, a disable-templates
flag, and a nested `options` configuration map.  Every method returns a new
builder; `getType` and `getOptions` realize the accumulated state.

External collaborators (the tcomb type system, the repository's
`validators.combine` and `combinators.validation` helpers, template providers
and factories) are modelled as opaque data: providers, factories and
transformers are tokens, error-message functions and types are free terms.
JavaScript exceptions are modelled with `Except`: errors thrown by the
builder's own code carry their message, while runtime `TypeError`s (invoking
an absent function) are a separate constructor.
-/

namespace TcombBuilder

/-- Opaque token standing for a `LazyTemplateProvider` instance. -/
abbrev Provider := Nat

/-- Opaque token standing for a template factory (a provider class). -/
abbrev Factory := Nat

/-- Opaque token standing for a transformer function. -/
abbrev Transformer := Nat

/-- Plain JavaScript values stored in the options map (labels, texts,
select-option values, opaque config blobs, ...). -/
inductive JsVal where
  | bool (b : Bool)
  | str (s : String)
  | num (n : Int)
  deriving DecidableEq, Repr

/-- Validation-error-message functions.  The builder never calls them; it only
stores them and combines them.  `Modelled from the spec:` the repository's
`validators.combine` (in `src/validators.js`, not part of the provided
sources) takes an ordered sequence of error functions and returns one
composite function; we model it freely with the `combined` constructor. -/
inductive ErrFn where
  | base (id : Nat)
  | combined (fs : List ErrFn)
  deriving Repr

/-- Function `validators.combine`, modelled freely (see `ErrFn`). -/
def combine (fs : List ErrFn) : ErrFn := ErrFn.combined fs

/-- Opaque tcomb types.  `node` is an arbitrary type constructor application;
`validationT` is `Modelled from the spec:` the `validation` combinator from
`src/combinators.js` (not part of the provided sources), which builds a leaf
validation type from a type descriptor, an error function and a name;
`maybeT` is the tcomb `maybe` wrapper. -/
inductive TcType where
  | node (id : Nat) (err : Option ErrFn) (sub : Option (List (String × TcType)))
  | validationT (tyDesc : Nat) (err : Option ErrFn) (name : Option String)
  | maybeT (t : TcType)
  deriving Repr

/-- Function `tcomb.maybe`: wraps a type in a Maybe.  tcomb's `maybe` returns an
already-Maybe type unchanged (idempotent), which we reproduce. -/
def tmaybe : TcType → TcType
  | TcType.maybeT t => TcType.maybeT t
  | t => TcType.maybeT t

/-- A deferred type constructor, as stored in the `_type` slot: a function of
the error function and an optional mapping of realized sub-types. -/
def TypeCtor := Option ErrFn → Option (List (String × TcType)) → TcType

/-- JavaScript failures: `thrown msg` is a `throw new Error(msg)` executed by
the builder's own code; `typeError` is a runtime `TypeError` raised when an
absent (null) function slot is invoked. -/
inductive JsError where
  | thrown (msg : String)
  | typeError
  deriving DecidableEq, Repr

/-- The nested `attrs` sub-map of the options map. -/
structure Attrs where
  placeholder : Option JsVal := none
  autoFocus : Option JsVal := none
  deriving DecidableEq, Repr

/-- The scalar-valued keys of the options map.  `none` means the key is
absent.  The opaque `config` blob is modelled as a scalar value. -/
structure Scalars where
  disabled : Option Bool := none
  label : Option JsVal := none
  name : Option JsVal := none
  value : Option JsVal := none
  text : Option JsVal := none
  help : Option JsVal := none
  factory : Option Factory := none
  error : Option ErrFn := none
  transformer : Option Transformer := none
  attrs : Attrs := {}
  config : Option JsVal := none
  deriving Repr

/-- The `options` map of a builder, and equally the plain object returned by
`getOptions`: scalar keys, the append-only `order` list (`[]` when absent),
the select-option list (`options` key; `none` when absent), the `nullOption`
slot, and the `fields` mapping populated during realization. -/
inductive Config where
  | mk (scalars : Scalars) (order : List String)
      (selOptions : Option (List Config))
      (nullOption : Option Config)
      (fields : List (String × Config))
  deriving Repr

def Config.scalars : Config → Scalars
  | Config.mk s _ _ _ _ => s

def Config.order : Config → List String
  | Config.mk _ o _ _ _ => o

def Config.selOptions : Config → Option (List Config)
  | Config.mk _ _ so _ _ => so

def Config.nullOption : Config → Option Config
  | Config.mk _ _ _ no _ => no

def Config.fields : Config → List (String × Config)
  | Config.mk _ _ _ _ f => f

/-- The empty options map of `initialState`. -/
def Config.empty : Config := Config.mk {} [] none none []

/-- A builder: the immutable state record of `BaseBuilder`.  Child builders
are stored in an ordered association list (Immutable.Map with stable
insertion-order iteration). -/
inductive Builder where
  | mk (fieldBuilders : List (String × Builder))
      (isOptional : Bool)
      (tpCallback : Option (Option Provider → Factory))
      (lazyProvider : Option Provider)
      (typeCtor : Option TypeCtor)
      (disableT : Bool)
      (cfg : Config)

def Builder.fieldBuilders : Builder → List (String × Builder)
  | Builder.mk f _ _ _ _ _ _ => f

def Builder.isOptional : Builder → Bool
  | Builder.mk _ o _ _ _ _ _ => o

def Builder.tpCallback : Builder → Option (Option Provider → Factory)
  | Builder.mk _ _ c _ _ _ _ => c

def Builder.lazyProvider : Builder → Option Provider
  | Builder.mk _ _ _ p _ _ _ => p

def Builder.typeCtor : Builder → Option TypeCtor
  | Builder.mk _ _ _ _ t _ _ => t

def Builder.disableT : Builder → Bool
  | Builder.mk _ _ _ _ _ d _ => d

def Builder.cfg : Builder → Config
  | Builder.mk _ _ _ _ _ _ c => c

/-- Constructor call `new BaseBuilder()`: the initial state. -/
def Builder.empty : Builder := Builder.mk [] false none none none false Config.empty

/-- The optional second argument of `getOptions`; `disableTemplates := none`
models a config object without that property. -/
structure GOCfg where
  disableTemplates : Option Bool := none
  deriving DecidableEq, Repr

/-- Right-biased merge of the scalar keys: the new (second) map's value wins
wherever it is present, as in Immutable.js `mergeDeep`; the nested `attrs`
map is merged key-by-key. -/
def Scalars.mergeOver (old new : Scalars) : Scalars where
  disabled := new.disabled <|> old.disabled
  label := new.label <|> old.label
  name := new.name <|> old.name
  value := new.value <|> old.value
  text := new.text <|> old.text
  help := new.help <|> old.help
  factory := new.factory <|> old.factory
  error := new.error <|> old.error
  transformer := new.transformer <|> old.transformer
  attrs :=
    { placeholder := new.attrs.placeholder <|> old.attrs.placeholder
      autoFocus := new.attrs.autoFocus <|> old.attrs.autoFocus }
  config := new.config <|> old.config

mutual

/-- Immutable.js `mergeDeep` of one options map into another (used by
`setNullOption` when a null option is already present): scalars are replaced
by the new map where present, lists are merged index-wise (new entries win,
the old tail is kept), maps of configs are merged key-wise recursively. -/
def Config.mergeDeep : Config → Config → Config
  | Config.mk s o so no f, Config.mk s2 o2 so2 no2 f2 =>
    Config.mk (Scalars.mergeOver s s2) (o2 ++ o.drop o2.length)
      (match so, so2 with
        | none, none => none
        | some l, none => some l
        | none, some l => some l
        | some l, some l2 => some (mergeConfigListDeep l l2))
      (match no, no2 with
        | none, none => none
        | some c, none => some c
        | none, some c => some c
        | some c, some c2 => some (Config.mergeDeep c c2))
      (mergeFieldsGo f f2 ++ f2.filter (fun p => (f.lookup p.1).isNone))

/-- Index-wise deep merge of two lists of configs (Immutable.js List merge:
entries of the new list override by index; the old list's tail survives). -/
def mergeConfigListDeep : List Config → List Config → List Config
  | l, [] => l
  | [], l2 => l2
  | c :: l, c2 :: l2 => Config.mergeDeep c c2 :: mergeConfigListDeep l l2

/-- Key-wise deep merge of the old fields mapping with the new one; keys only
in the new mapping are appended afterwards by the caller. -/
def mergeFieldsGo : List (String × Config) → List (String × Config) → List (String × Config)
  | [], _ => []
  | (k, v) :: rest, f2 =>
    (k, match f2.lookup k with
        | some v2 => Config.mergeDeep v v2
        | none => v) :: mergeFieldsGo rest f2

end

mutual

/-- Method `getType()`: realize the tcomb type.  With no field builders the stored
type constructor is applied to the error function alone; otherwise every
child's type is realized first and passed as the sub-type mapping.  Invoking
an absent constructor is a runtime `TypeError`.  An optional builder's result
is wrapped with `tcomb.maybe`. -/
def Builder.getType : Builder → Except JsError TcType
  | Builder.mk fbs isOpt _ _ tyC _ cfg => do
    let core ←
      if fbs.isEmpty then
        match tyC with
        | none => Except.error JsError.typeError
        | some f => Except.ok (f cfg.scalars.error none)
      else do
        let subs ← realizeSubTypes fbs
        match tyC with
        | none => Except.error JsError.typeError
        | some f => Except.ok (f cfg.scalars.error (some subs))
    pure (if isOpt then tmaybe core else core)

/-- Realize the types of all child field builders, in insertion order. -/
def realizeSubTypes : List (String × Builder) → Except JsError (List (String × TcType))
  | [] => Except.ok []
  | (k, c) :: rest => do
    let t ← Builder.getType c
    let ts ← realizeSubTypes rest
    pure ((k, t) :: ts)

end

mutual

/-- Method `getOptions(lazyTemplateProvider, config)`: realize the options object.
`disableTemplates` is taken from the config argument when present, else from
the builder's own flag; the provider is the argument when present, else the
builder's own.  With a template callback, no concrete factory, no provider
and templates enabled, an error is thrown.  Every child's options are
realized with the same resolved provider and disable flag and merged in under
`fields`; the callback-produced factory is merged in when applicable. -/
def Builder.getOptions : Builder → Option Provider → GOCfg → Except JsError Config
  | Builder.mk fbs _ tpc ltpOwn _ dflag cfg, ltpArg, go => do
    let d := go.disableTemplates.getD dflag
    let provider := ltpArg <|> ltpOwn
    let hasConcreteTemplateFactory := cfg.scalars.factory.isSome
    if !hasConcreteTemplateFactory && tpc.isSome && provider.isNone && !d then
      Except.error (JsError.thrown
        "A template callback function was specified, but no provider was set")
    else do
      let flds ← realizeFields provider d fbs
      let scalars :=
        match tpc with
        | some cb =>
          if !hasConcreteTemplateFactory && !d then
            { cfg.scalars with factory := some (cb provider) }
          else cfg.scalars
        | none => cfg.scalars
      pure (Config.mk scalars cfg.order cfg.selOptions cfg.nullOption flds)

/-- Realize the options of all child field builders, in insertion order,
propagating the resolved provider and disable flag unchanged. -/
def realizeFields : Option Provider → Bool → List (String × Builder) →
    Except JsError (List (String × Config))
  | _, _, [] => Except.ok []
  | p, d, (k, c) :: rest => do
    let oc ← Builder.getOptions c p { disableTemplates := some d }
    let ocs ← realizeFields p d rest
    pure ((k, oc) :: ocs)

end

/-- Update only the options map of a builder's state. -/
def Builder.withCfg (b : Builder) (c : Config) : Builder :=
  Builder.mk b.fieldBuilders b.isOptional b.tpCallback b.lazyProvider b.typeCtor b.disableT c

/-- Update only the scalar keys of a builder's options map (a `mergeDeep`
of a single scalar key into the state). -/
def Builder.withScalars (b : Builder) (s : Scalars) : Builder :=
  b.withCfg (Config.mk s b.cfg.order b.cfg.selOptions b.cfg.nullOption b.cfg.fields)

def Builder.setDisabled (b : Builder) (disabled : Bool) : Builder :=
  b.withScalars { b.cfg.scalars with disabled := some disabled }

def Builder.setLabel (b : Builder) (label : JsVal) : Builder :=
  b.withScalars { b.cfg.scalars with label := some label }

def Builder.setName (b : Builder) (name : JsVal) : Builder :=
  b.withScalars { b.cfg.scalars with name := some name }

def Builder.setValue (b : Builder) (value : JsVal) : Builder :=
  b.withScalars { b.cfg.scalars with value := some value }

def Builder.setText (b : Builder) (text : JsVal) : Builder :=
  b.withScalars { b.cfg.scalars with text := some text }

def Builder.setHelp (b : Builder) (help : JsVal) : Builder :=
  b.withScalars { b.cfg.scalars with help := some help }

def Builder.setTemplateFactory (b : Builder) (factory : Factory) : Builder :=
  b.withScalars { b.cfg.scalars with factory := some factory }

def Builder.setLazyTemplateFactory (b : Builder) (callback : Option Provider → Factory) :
    Builder :=
  Builder.mk b.fieldBuilders b.isOptional (some callback) b.lazyProvider b.typeCtor
    b.disableT b.cfg

def Builder.setValidationErrorMessageFn (b : Builder) (error : ErrFn) : Builder :=
  b.withScalars { b.cfg.scalars with error := some error }

def Builder.setTransformer (b : Builder) (transformer : Transformer) : Builder :=
  b.withScalars { b.cfg.scalars with transformer := some transformer }

/-- Method `addValidationErrorMessageFn`: with no existing error this is
`setValidationErrorMessageFn`; otherwise the stored error becomes
`validators.combine([existing, new])`. -/
def Builder.addValidationErrorMessageFn (b : Builder) (error : ErrFn) : Builder :=
  match b.cfg.scalars.error with
  | none => b.setValidationErrorMessageFn error
  | some existingError =>
    b.withScalars { b.cfg.scalars with error := some (combine [existingError, error]) }

/-- Immutable.Map `setIn`: replace the value of an existing key in place,
else append the new entry. -/
def setAssoc : List (String × Builder) → String → Builder → List (String × Builder)
  | [], k, v => [(k, v)]
  | (k2, v2) :: rest, k, v =>
    if k2 = k then (k, v) :: rest else (k2, v2) :: setAssoc rest k v

/-- Method `setField(key, fieldBuilder)`: throws when a select option was already
added (the `options.options` key is present); otherwise stores the child
builder under the key and appends the key to `options.order`. -/
def Builder.setField (b : Builder) (key : String) (fieldBuilder : Builder) :
    Except JsError Builder :=
  if b.cfg.selOptions.isSome then
    Except.error (JsError.thrown
      "Tried to set a field, but a select option was already added. Select options and fields are mutually exclusive.")
  else
    Except.ok (Builder.mk (setAssoc b.fieldBuilders key fieldBuilder) b.isOptional
      b.tpCallback b.lazyProvider b.typeCtor b.disableT
      (Config.mk b.cfg.scalars (b.cfg.order ++ [key]) b.cfg.selOptions b.cfg.nullOption
        b.cfg.fields))

/-- Method `addSelectOption(selectBuilder)`: throws when a field was already set;
otherwise eagerly realizes the select builder's options (with no provider and
an empty config) and appends the snapshot to `options.options`. -/
def Builder.addSelectOption (b : Builder) (selectBuilder : Builder) :
    Except JsError Builder :=
  if !b.fieldBuilders.isEmpty then
    Except.error (JsError.thrown
      "Tried to add a select option, but a field was already set. Select options and fields are mutually exclusive.")
  else do
    let selectOptions ← selectBuilder.getOptions none {}
    pure (b.withCfg (Config.mk b.cfg.scalars b.cfg.order
      (some ((b.cfg.selOptions.getD []) ++ [selectOptions])) b.cfg.nullOption b.cfg.fields))

/-- Method `setType(typeCombinator)`: store the type constructor (the extra closure
layer in the source has no observable effect). -/
def Builder.setType (b : Builder) (typeCombinator : TypeCtor) : Builder :=
  Builder.mk b.fieldBuilders b.isOptional b.tpCallback b.lazyProvider
    (some (fun error subTypes => typeCombinator error subTypes)) b.disableT b.cfg

/-- Method `setTypeAndValidate(type, name)`: `setType` with the `validation`
combinator from `src/combinators.js` (see `TcType.validationT`). -/
def Builder.setTypeAndValidate (b : Builder) (type : Nat) (name : Option String) : Builder :=
  b.setType (fun errorFn _ => TcType.validationT type errorFn name)

def Builder.setLazyTemplateProvider (b : Builder) (provider : Provider) : Builder :=
  Builder.mk b.fieldBuilders b.isOptional b.tpCallback (some provider) b.typeCtor
    b.disableT b.cfg

def Builder.makeOptional (b : Builder) : Builder :=
  Builder.mk b.fieldBuilders true b.tpCallback b.lazyProvider b.typeCtor b.disableT b.cfg

/-- Method `setNullOption(selectBuilder)`: eagerly realize the select builder's
options and deep-merge the snapshot into the `nullOption` slot. -/
def Builder.setNullOption (b : Builder) (selectBuilder : Builder) :
    Except JsError Builder :=
  do
    let nullOption ← selectBuilder.getOptions none {}
    pure (b.withCfg (Config.mk b.cfg.scalars b.cfg.order b.cfg.selOptions
      (some (match b.cfg.nullOption with
             | none => nullOption
             | some old => Config.mergeDeep old nullOption))
      b.cfg.fields))

def Builder.setPlaceholder (b : Builder) (placeholder : JsVal) : Builder :=
  b.withScalars { b.cfg.scalars with
    attrs := { b.cfg.scalars.attrs with placeholder := some placeholder } }

def Builder.setAutoFocus (b : Builder) (autoFocus : JsVal) : Builder :=
  b.withScalars { b.cfg.scalars with
    attrs := { b.cfg.scalars.attrs with autoFocus := some autoFocus } }

def Builder.setConfig (b : Builder) (config : JsVal) : Builder :=
  b.withScalars { b.cfg.scalars with config := some config }

/-- Method `_disableTemplates()`: set the disable-templates flag. -/
def Builder.disableTemplates (b : Builder) : Builder :=
  Builder.mk b.fieldBuilders b.isOptional b.tpCallback b.lazyProvider b.typeCtor true b.cfg

/-- One state-bearing operation of the builder interface, with its
arguments. -/
inductive Op where
  | setDisabled (d : Bool)
  | setLabel (v : JsVal)
  | setName (v : JsVal)
  | setValue (v : JsVal)
  | setText (v : JsVal)
  | setHelp (v : JsVal)
  | setTemplateFactory (f : Factory)
  | setLazyTemplateFactory (cb : Option Provider → Factory)
  | setValidationErrorMessageFn (e : ErrFn)
  | setTransformer (t : Transformer)
  | addValidationErrorMessageFn (e : ErrFn)
  | setField (k : String) (fb : Builder)
  | addSelectOption (sb : Builder)
  | setType (f : TypeCtor)
  | setTypeAndValidate (ty : Nat) (name : Option String)
  | setLazyTemplateProvider (p : Provider)
  | makeOptional
  | setNullOption (sb : Builder)
  | setPlaceholder (v : JsVal)
  | setAutoFocus (v : JsVal)
  | setConfig (v : JsVal)
  | disableTemplates

/-- Apply one operation to a builder; the fallible operations return their
error, the others always succeed. -/
def applyOp : Op → Builder → Except JsError Builder
  | Op.setDisabled d, b => Except.ok (b.setDisabled d)
  | Op.setLabel v, b => Except.ok (b.setLabel v)
  | Op.setName v, b => Except.ok (b.setName v)
  | Op.setValue v, b => Except.ok (b.setValue v)
  | Op.setText v, b => Except.ok (b.setText v)
  | Op.setHelp v, b => Except.ok (b.setHelp v)
  | Op.setTemplateFactory f, b => Except.ok (b.setTemplateFactory f)
  | Op.setLazyTemplateFactory cb, b => Except.ok (b.setLazyTemplateFactory cb)
  | Op.setValidationErrorMessageFn e, b => Except.ok (b.setValidationErrorMessageFn e)
  | Op.setTransformer t, b => Except.ok (b.setTransformer t)
  | Op.addValidationErrorMessageFn e, b => Except.ok (b.addValidationErrorMessageFn e)
  | Op.setField k fb, b => b.setField k fb
  | Op.addSelectOption sb, b => b.addSelectOption sb
  | Op.setType f, b => Except.ok (b.setType f)
  | Op.setTypeAndValidate ty name, b => Except.ok (b.setTypeAndValidate ty name)
  | Op.setLazyTemplateProvider p, b => Except.ok (b.setLazyTemplateProvider p)
  | Op.makeOptional, b => Except.ok b.makeOptional
  | Op.setNullOption sb, b => b.setNullOption sb
  | Op.setPlaceholder v, b => Except.ok (b.setPlaceholder v)
  | Op.setAutoFocus v, b => Except.ok (b.setAutoFocus v)
  | Op.setConfig v, b => Except.ok (b.setConfig v)
  | Op.disableTemplates, b => Except.ok b.disableTemplates

/-- Heap semantics of one operation: builders live in a heap of values, a
method call reads the receiver and allocates a fresh cell for the `new
BaseBuilder(...)` result, leaving every existing cell untouched. -/
def applyOpHeap (op : Op) (i : Nat) (h : List Builder) :
    Except JsError (Nat × List Builder) :=
  match h[i]? with
  | none => Except.error JsError.typeError
  | some b => (applyOp op b).map (fun b2 => (h.length, h ++ [b2]))

/-- The inner `type()` closure of `getType`, before the optional wrapping. -/
def Builder.getTypeCore : Builder → Except JsError TcType
  | Builder.mk fbs _ _ _ tyC _ cfg =>
    if fbs.isEmpty then
      match tyC with
      | none => Except.error JsError.typeError
      | some f => Except.ok (f cfg.scalars.error none)
    else do
      let subs ← realizeSubTypes fbs
      match tyC with
      | none => Except.error JsError.typeError
      | some f => Except.ok (f cfg.scalars.error (some subs))

/-- First-match association lookup on string-keyed lists. -/
def findVal {α : Type} : List (String × α) → String → Option α
  | [], _ => none
  | (k2, v) :: rest, k => if k2 = k then some v else findVal rest k

/-- The child builder reached by following a path of field keys. -/
def Builder.atPath : Builder → List String → Option Builder
  | b, [] => some b
  | b, k :: ks =>
    match findVal b.fieldBuilders k with
    | none => none
    | some c => Builder.atPath c ks

/-- The nested realized configuration reached by following a path of field
keys through the `fields` mappings. -/
def Config.atPath : Config → List String → Option Config
  | c, [] => some c
  | c, k :: ks =>
    match findVal c.fields k with
    | none => none
    | some c2 => Config.atPath c2 ks

/-- Extract the builder from a successful fallible call (used only to name
concrete example builders). -/
def okOr (e : Except JsError Builder) : Builder := e.toOption.getD Builder.empty

/-- The first of the two concrete example builders of the C4 witness. -/
def fieldedA : Builder := okOr (Builder.empty.setField "a" Builder.empty)

/-- The intermediate builder of the C10 witness. -/
def dupB1 : Builder := okOr (Builder.empty.setField "k" Builder.empty)

/-- The final builder of the C10 witness. -/
def dupB2 : Builder := okOr (dupB1.setField "k" Builder.empty.makeOptional)

/-- The realized options object of the two-error C8 witness. -/
def errCombOut : Config :=
  Config.mk { error := some (combine [ErrFn.base 0, ErrFn.base 1]) } [] none none []

/-- The realized options object of the single-error C8 witness. -/
def errSingleOut : Config :=
  Config.mk { error := some (ErrFn.base 1) } [] none none []

/-- The select-option builder of the C9 example: value `true`, text "Yes". -/
def yesOption : Builder :=
  (Builder.empty.setValue (JsVal.bool true)).setText (JsVal.str "Yes")

/-- The realized snapshot of `yesOption`. -/
def yesSnapshot : Config :=
  Config.mk { value := some (JsVal.bool true), text := some (JsVal.str "Yes") }
    [] none none []

/-- The builder holding the realized `yesOption` snapshot. -/
def bYes : Builder := okOr (Builder.empty.addSelectOption yesOption)

/-- The concrete builder of the C2 witness: a template callback, nothing
else. -/
def cbOnly : Builder := Builder.empty.setLazyTemplateFactory (fun _ => 7)

/-- The leaf of the C7 witness: a template callback, no factory. -/
def leafCB : Builder := Builder.empty.setLazyTemplateFactory (fun p => p.getD 0 + 1)

/-- The middle layer of the C7 witness: one field holding the leaf. -/
def midB : Builder := okOr (Builder.empty.setField "g" leafCB)

/-- The root of the C7 witness: provider 41, one field holding the middle
layer. -/
def rootB : Builder := okOr ((Builder.empty.setLazyTemplateProvider 41).setField "f" midB)

/-- Extract the realized options from a successful call (used to name the
C7 witness output). -/
def okOrC (e : Except JsError Config) : Config := e.toOption.getD Config.empty

/-- The realized root options of the C7 witness. -/
def rootOut : Config := okOrC (rootB.getOptions none {})

section ProjectionLemmas

@[simp] theorem Config.scalars_mk (s : Scalars) (o : List String)
    (so : Option (List Config)) (no : Option Config) (f : List (String × Config)) :
    (Config.mk s o so no f).scalars = s := rfl

@[simp] theorem Config.order_mk (s : Scalars) (o : List String)
    (so : Option (List Config)) (no : Option Config) (f : List (String × Config)) :
    (Config.mk s o so no f).order = o := rfl

@[simp] theorem Config.selOptions_mk (s : Scalars) (o : List String)
    (so : Option (List Config)) (no : Option Config) (f : List (String × Config)) :
    (Config.mk s o so no f).selOptions = so := rfl

@[simp] theorem Config.nullOption_mk (s : Scalars) (o : List String)
    (so : Option (List Config)) (no : Option Config) (f : List (String × Config)) :
    (Config.mk s o so no f).nullOption = no := rfl

@[simp] theorem Config.fields_mk (s : Scalars) (o : List String)
    (so : Option (List Config)) (no : Option Config) (f : List (String × Config)) :
    (Config.mk s o so no f).fields = f := rfl

@[simp] theorem Builder.fieldBuilders_mk (f : List (String × Builder)) (o : Bool)
    (c : Option (Option Provider → Factory)) (p : Option Provider)
    (t : Option TypeCtor) (d : Bool) (cf : Config) :
    (Builder.mk f o c p t d cf).fieldBuilders = f := rfl

@[simp] theorem Builder.isOptional_mk (f : List (String × Builder)) (o : Bool)
    (c : Option (Option Provider → Factory)) (p : Option Provider)
    (t : Option TypeCtor) (d : Bool) (cf : Config) :
    (Builder.mk f o c p t d cf).isOptional = o := rfl

@[simp] theorem Builder.tpCallback_mk (f : List (String × Builder)) (o : Bool)
    (c : Option (Option Provider → Factory)) (p : Option Provider)
    (t : Option TypeCtor) (d : Bool) (cf : Config) :
    (Builder.mk f o c p t d cf).tpCallback = c := rfl

@[simp] theorem Builder.lazyProvider_mk (f : List (String × Builder)) (o : Bool)
    (c : Option (Option Provider → Factory)) (p : Option Provider)
    (t : Option TypeCtor) (d : Bool) (cf : Config) :
    (Builder.mk f o c p t d cf).lazyProvider = p := rfl

@[simp] theorem Builder.typeCtor_mk (f : List (String × Builder)) (o : Bool)
    (c : Option (Option Provider → Factory)) (p : Option Provider)
    (t : Option TypeCtor) (d : Bool) (cf : Config) :
    (Builder.mk f o c p t d cf).typeCtor = t := rfl

@[simp] theorem Builder.disableT_mk (f : List (String × Builder)) (o : Bool)
    (c : Option (Option Provider → Factory)) (p : Option Provider)
    (t : Option TypeCtor) (d : Bool) (cf : Config) :
    (Builder.mk f o c p t d cf).disableT = d := rfl

@[simp] theorem Builder.cfg_mk (f : List (String × Builder)) (o : Bool)
    (c : Option (Option Provider → Factory)) (p : Option Provider)
    (t : Option TypeCtor) (d : Bool) (cf : Config) :
    (Builder.mk f o c p t d cf).cfg = cf := rfl

end ProjectionLemmas

/-- Realization `getType` is the inner closure's result, wrapped in `tcomb.maybe` when
the optional flag is set. -/
theorem getType_eq_core (b : Builder) :
    b.getType = (do
      let core ← b.getTypeCore
      pure (if b.isOptional then tmaybe core else core)) := by
  cases b with
  | mk fbs isOpt tpc ltp tyC dfl cfg =>
    rw [Builder.getType.eq_def]
    cases hfe : fbs.isEmpty <;> cases tyC <;> cases hr : realizeSubTypes fbs <;>
      simp [Builder.getTypeCore, hfe, hr, Except.bind, Except.pure, Bind.bind, Pure.pure]

/-- The maybe wrapper is idempotent (tcomb returns an already-Maybe type
unchanged). -/
theorem tmaybe_idem (t : TcType) : tmaybe (tmaybe t) = tmaybe t := by
  cases t <;> rfl

/-- Method `makeOptional` leaves the inner type computation untouched. -/
theorem getTypeCore_makeOptional (b : Builder) :
    b.makeOptional.getTypeCore = b.getTypeCore := by
  cases b
  rfl

/-- C1 (amended): on a builder with no fields and no type constructor,
`getType()` fails, but with a runtime `TypeError` from invoking the absent
`_type` slot, not with an authored "no type set" error (no such message
exists in the code). -/
theorem getType_noCtor_typeError (b : Builder)
    (hf : b.fieldBuilders = []) (ht : b.typeCtor = none) :
    b.getType = Except.error JsError.typeError := by
  cases b
  simp only [Builder.fieldBuilders_mk] at hf
  simp only [Builder.typeCtor_mk] at ht
  subst hf ht
  rfl

/-- C1 witness: the fresh builder has no fields and no type constructor, and
its `getType()` fails with the runtime `TypeError`. -/
theorem getType_noCtor_typeError_witness :
    Builder.empty.fieldBuilders = [] ∧ Builder.empty.typeCtor = none ∧
    Builder.empty.getType = Except.error JsError.typeError :=
  ⟨rfl, rfl, getType_noCtor_typeError Builder.empty rfl rfl⟩

/-- C1 counterexample: the fresh builder (empty fields, no type constructor)
does not fail with an error named "no type set"; its failure is the runtime
`TypeError`. -/
theorem getType_no_noTypeSet_error :
    Builder.empty.fieldBuilders = [] ∧ Builder.empty.typeCtor = none ∧
    Builder.empty.getType ≠ Except.error (JsError.thrown "no type set") := by
  refine ⟨rfl, rfl, ?_⟩
  have h : Builder.empty.getType = Except.error JsError.typeError := rfl
  rw [h]
  simp

/-- C3 (amended): `setField` fails exactly when the select-option list is
present (a select option was added), and `addSelectOption` fails exactly when
a field is already set or the select builder's eager realization
(`getOptions` with no provider) itself fails; otherwise both succeed with a
new builder. -/
theorem setField_addSelectOption_exclusive :
    (∀ (b : Builder) (k : String) (fb : Builder),
        (b.setField k fb).isOk = !b.cfg.selOptions.isSome) ∧
    ∀ b opt : Builder,
        (b.addSelectOption opt).isOk =
          (b.fieldBuilders.isEmpty && (opt.getOptions none {}).isOk) := by
  constructor
  · intro b k fb
    cases h : b.cfg.selOptions.isSome <;>
      simp [Builder.setField, h, Except.isOk, Except.toBool]
  · intro b opt
    cases h : b.fieldBuilders.isEmpty <;>
      cases hg : opt.getOptions none {} <;>
        simp [Builder.addSelectOption, h, hg, Except.isOk, Except.toBool]

/-- C3 counterexample: with no field set at all, `addSelectOption` still
fails when the select builder carries a template callback and no provider,
because the option is realized eagerly at attachment time. -/
theorem addSelectOption_eager_failure :
    Builder.empty.fieldBuilders.isEmpty = true ∧
    (Builder.empty.addSelectOption
        (Builder.empty.setLazyTemplateFactory (fun _ => 7))) =
      Except.error (JsError.thrown
        "A template callback function was specified, but no provider was set") :=
  ⟨rfl, rfl⟩

section AssocLemmas

theorem setAssoc_of_findVal_none (l : List (String × Builder)) (k : String) (v : Builder)
    (h : findVal l k = none) : setAssoc l k v = l ++ [(k, v)] := by
  induction l with
  | nil => rfl
  | cons hd tl ih =>
    obtain ⟨k2, v2⟩ := hd
    by_cases hk : k2 = k
    · simp [findVal, hk] at h
    · simp only [findVal, if_neg hk] at h
      simp [setAssoc, hk, ih h]

theorem setAssoc_append_last (l : List (String × Builder)) (k : String) (x y : Builder)
    (h : findVal l k = none) : setAssoc (l ++ [(k, x)]) k y = l ++ [(k, y)] := by
  induction l with
  | nil => simp [setAssoc]
  | cons hd tl ih =>
    obtain ⟨k2, v2⟩ := hd
    by_cases hk : k2 = k
    · simp [findVal, hk] at h
    · simp only [findVal, if_neg hk] at h
      simp [setAssoc, hk, ih h]

theorem findVal_append_last (l : List (String × Builder)) (k : String) (y : Builder)
    (h : findVal l k = none) : findVal (l ++ [(k, y)]) k = some y := by
  induction l with
  | nil => simp [findVal]
  | cons hd tl ih =>
    obtain ⟨k2, v2⟩ := hd
    by_cases hk : k2 = k
    · simp [findVal, hk] at h
    · simp only [findVal, if_neg hk] at h
      simp [findVal, hk, ih h]

end AssocLemmas

/-- A successful `setField` leaves every state slot except the field mapping
and the order list unchanged, installs the child, and appends the key. -/
theorem setField_ok (b : Builder) (k : String) (fb b2 : Builder)
    (h : b.setField k fb = Except.ok b2) :
    b.cfg.selOptions.isSome = false ∧
    b2 = Builder.mk (setAssoc b.fieldBuilders k fb) b.isOptional b.tpCallback
      b.lazyProvider b.typeCtor b.disableT
      (Config.mk b.cfg.scalars (b.cfg.order ++ [k]) b.cfg.selOptions
        b.cfg.nullOption b.cfg.fields) := by
  by_cases hso : b.cfg.selOptions.isSome
  · simp [Builder.setField, hso] at h
  · simp only [Builder.setField, hso, if_neg] at h
    simp only [Bool.not_eq_true] at hso
    refine ⟨hso, ?_⟩
    simp only [if_neg, hso, Bool.false_eq_true, if_false, Except.ok.injEq] at h
    exact h.symm

/-- C4: every successful `setField` appends exactly its key to
`configuration.order`, never removing or reordering; in particular adding
fields "a" then "b" to a fresh builder realizes an options object whose
`order` is `["a", "b"]`. -/
theorem setField_appends_order :
    (∀ (b : Builder) (k : String) (fb b2 : Builder),
        b.setField k fb = Except.ok b2 → b2.cfg.order = b.cfg.order ++ [k]) ∧
    (do
        let b1 ← Builder.empty.setField "a" Builder.empty
        let b2 ← b1.setField "b" Builder.empty
        b2.getOptions none {}).map Config.order = Except.ok ["a", "b"] := by
  constructor
  · intro b k fb b2 h
    rcases setField_ok b k fb b2 h with ⟨-, rfl⟩
    simp
  · rfl

/-- C4 witness: on the fresh builder, setting field "a" succeeds and the new
order list is the old one with "a" appended. -/
theorem setField_appends_order_witness :
    fieldedA.cfg.order = Builder.empty.cfg.order ++ ["a"] :=
  setField_appends_order.1 Builder.empty "a" Builder.empty fieldedA rfl

/-- C10: setting the same key twice stores only the second child builder
under that key (a single entry, replaced in place), while the order list
receives the key twice. -/
theorem setField_duplicate_key :
    ∀ (b : Builder) (k : String) (x y b1 b2 : Builder),
      findVal b.fieldBuilders k = none → k ∉ b.cfg.order →
      b.setField k x = Except.ok b1 → b1.setField k y = Except.ok b2 →
      b2.fieldBuilders = b.fieldBuilders ++ [(k, y)] ∧
      findVal b2.fieldBuilders k = some y ∧
      b2.cfg.order = b.cfg.order ++ [k, k] ∧
      b2.cfg.order.count k = 2 := by
  intro b k x y b1 b2 hfv horder h1 h2
  rcases setField_ok b k x b1 h1 with ⟨-, rfl⟩
  rcases setField_ok _ k y b2 h2 with ⟨-, rfl⟩
  simp only [Builder.fieldBuilders_mk, Builder.cfg_mk, Config.order_mk]
  rw [setAssoc_of_findVal_none _ _ _ hfv, setAssoc_append_last _ _ _ _ hfv]
  refine ⟨rfl, findVal_append_last _ _ _ hfv, by simp, ?_⟩
  simp [List.count_append, List.count_eq_zero.2 horder]

/-- C10 witness: setting key "k" twice on the fresh builder keeps one entry,
mapped to the second child, and puts "k" in the order list twice. -/
theorem setField_duplicate_key_witness :
    dupB2.fieldBuilders = Builder.empty.fieldBuilders ++ [("k", Builder.empty.makeOptional)] ∧
    findVal dupB2.fieldBuilders "k" = some Builder.empty.makeOptional ∧
    dupB2.cfg.order = Builder.empty.cfg.order ++ ["k", "k"] ∧
    dupB2.cfg.order.count "k" = 2 :=
  setField_duplicate_key Builder.empty "k" Builder.empty Builder.empty.makeOptional
    dupB1 dupB2 rfl (by simp [Builder.empty, Config.empty]) rfl rfl

/-- One-step unfolding of `getOptions` on an explicit state record. -/
theorem getOptions_mk (fbs : List (String × Builder)) (isOpt : Bool)
    (tpc : Option (Option Provider → Factory)) (ltpOwn : Option Provider)
    (tyC : Option TypeCtor) (dflag : Bool) (cfg : Config)
    (ltpArg : Option Provider) (go : GOCfg) :
    Builder.getOptions (Builder.mk fbs isOpt tpc ltpOwn tyC dflag cfg) ltpArg go =
      (let d := go.disableTemplates.getD dflag
       let provider := ltpArg <|> ltpOwn
       let hasConcreteTemplateFactory := cfg.scalars.factory.isSome
       if !hasConcreteTemplateFactory && tpc.isSome && provider.isNone && !d then
         Except.error (JsError.thrown
           "A template callback function was specified, but no provider was set")
       else do
         let flds ← realizeFields provider d fbs
         let scalars :=
           match tpc with
           | some cb =>
             if !hasConcreteTemplateFactory && !d then
               { cfg.scalars with factory := some (cb provider) }
             else cfg.scalars
           | none => cfg.scalars
         pure (Config.mk scalars cfg.order cfg.selOptions cfg.nullOption flds)) := rfl

/-- A successful `getOptions` returns the stored error function unchanged
(realization only fills in the factory and the fields). -/
theorem getOptions_ok_error (b : Builder) (p : Option Provider) (go : GOCfg) (out : Config)
    (h : b.getOptions p go = Except.ok out) :
    out.scalars.error = b.cfg.scalars.error := by
  cases b with
  | mk fbs isOpt tpc ltp tyC dfl cfg =>
    rw [getOptions_mk] at h
    simp only [] at h
    split at h
    · simp at h
    · cases hr : realizeFields (p <|> ltp) (go.disableTemplates.getD dfl) fbs with
      | error e => rw [hr] at h; simp [Bind.bind, Except.bind] at h
      | ok flds =>
        rw [hr] at h
        simp only [Bind.bind, Except.bind, pure, Except.pure, Except.ok.injEq] at h
        subst h
        simp only [Config.scalars_mk, Builder.cfg_mk]
        split
        · split <;> simp
        · simp

/-- C8: `addValidationErrorMessageFn` with no prior error is exactly
`setValidationErrorMessageFn` (so the realized error is the new function
alone), and with a prior error `f` the realized error is
`validators.combine` applied to the ordered pair `[f, g]`. -/
theorem errorFn_composition :
    (∀ (b : Builder) (g : ErrFn), b.cfg.scalars.error = none →
        b.addValidationErrorMessageFn g = b.setValidationErrorMessageFn g) ∧
    (∀ (b : Builder) (f g : ErrFn) (p : Option Provider) (go : GOCfg) (out : Config),
        ((b.setValidationErrorMessageFn f).addValidationErrorMessageFn g).getOptions p go
          = Except.ok out →
        out.scalars.error = some (combine [f, g])) ∧
    (∀ (b : Builder) (g : ErrFn) (p : Option Provider) (go : GOCfg) (out : Config),
        b.cfg.scalars.error = none →
        (b.addValidationErrorMessageFn g).getOptions p go = Except.ok out →
        out.scalars.error = some g) := by
  refine ⟨?_, ?_, ?_⟩
  · intro b g h
    simp [Builder.addValidationErrorMessageFn, h]
  · intro b f g p go out h
    rw [getOptions_ok_error _ _ _ _ h]
    simp [Builder.addValidationErrorMessageFn, Builder.setValidationErrorMessageFn,
      Builder.withScalars, Builder.withCfg]
  · intro b g p go out he h
    rw [getOptions_ok_error _ _ _ _ h]
    simp [Builder.addValidationErrorMessageFn, he, Builder.setValidationErrorMessageFn,
      Builder.withScalars, Builder.withCfg]

/-- C8 witness: on the fresh builder, `addValidationErrorMessageFn` alone
stores exactly the new function; after `setValidationErrorMessageFn`, the
realized error is the combination of the two functions in order. -/
theorem errorFn_composition_witness :
    Builder.empty.addValidationErrorMessageFn (ErrFn.base 1)
      = Builder.empty.setValidationErrorMessageFn (ErrFn.base 1) ∧
    errCombOut.scalars.error = some (combine [ErrFn.base 0, ErrFn.base 1]) ∧
    errSingleOut.scalars.error = some (ErrFn.base 1) :=
  ⟨errorFn_composition.1 Builder.empty (ErrFn.base 1) rfl,
   errorFn_composition.2.1 Builder.empty (ErrFn.base 0) (ErrFn.base 1) none {} errCombOut rfl,
   errorFn_composition.2.2 Builder.empty (ErrFn.base 1) none {} errSingleOut rfl rfl⟩

/-- C6: whenever `getType()` succeeds, `makeOptional().getType()` is the
`tcomb.maybe`-wrapped form of the plain result. -/
theorem makeOptional_wraps_maybe :
    ∀ (b : Builder) (t : TcType), b.getType = Except.ok t →
      b.makeOptional.getType = Except.ok (tmaybe t) := by
  intro b t h
  rw [getType_eq_core] at h
  rw [getType_eq_core, getTypeCore_makeOptional]
  cases hc : b.getTypeCore with
  | error e => rw [hc] at h; simp [Bind.bind, Except.bind] at h
  | ok c =>
    rw [hc] at h
    simp only [Bind.bind, Except.bind, pure, Except.pure, Except.ok.injEq] at h
    have hopt : b.makeOptional.isOptional = true := by cases b; rfl
    rw [hopt]
    simp only [Bind.bind, Except.bind, pure, Except.pure, if_true]
    cases ho : b.isOptional <;> rw [ho] at h <;> simp at h <;> subst h
    · rfl
    · rw [tmaybe_idem]

/-- C6 witness: a builder with a type constructor set realizes its type, and
making it optional wraps that very type in the maybe marker. -/
theorem makeOptional_wraps_maybe_witness :
    (Builder.empty.setType (fun e st => TcType.node 0 e st)).makeOptional.getType
      = Except.ok (tmaybe (TcType.node 0 none none)) :=
  makeOptional_wraps_maybe (Builder.empty.setType (fun e st => TcType.node 0 e st))
    (TcType.node 0 none none) rfl

/-- C5: every state-bearing operation, run in the heap semantics, allocates a
fresh cell for its result and leaves every pre-existing builder untouched, so
the prior builders' `getType()` and `getOptions()` results are the same as if
the operation had never been called. -/
theorem op_immutability :
    ∀ (op : Op) (i : Nat) (h : List Builder) (j : Nat) (h2 : List Builder),
      applyOpHeap op i h = Except.ok (j, h2) →
      h.length ≤ j ∧
      ∀ i2, i2 < h.length →
        h2[i2]?.map Builder.getType = h[i2]?.map Builder.getType ∧
        ∀ (p : Option Provider) (go : GOCfg),
          h2[i2]?.map (fun b => b.getOptions p go)
            = h[i2]?.map (fun b => b.getOptions p go) := by
  intro op i h j h2 happ
  unfold applyOpHeap at happ
  split at happ
  · simp at happ
  · rename_i b hb
    cases hop : applyOp op b with
    | error e => rw [hop] at happ; simp [Except.map] at happ
    | ok b2 =>
      rw [hop] at happ
      simp only [Except.map, Except.ok.injEq, Prod.mk.injEq] at happ
      obtain ⟨hj, hh⟩ := happ
      subst hj
      subst hh
      refine ⟨le_refl _, ?_⟩
      intro i2 hi2
      have hget : (h ++ [b2])[i2]? = h[i2]? := List.getElem?_append_left hi2
      rw [hget]
      exact ⟨rfl, fun p go => rfl⟩

/-- C5 witness: applying `setLabel` to the builder in cell 0 allocates cell 1
and leaves cell 0's realized type unchanged. -/
theorem op_immutability_witness :
    [Builder.empty].length ≤ 1 ∧
    [Builder.empty, Builder.empty.setLabel (JsVal.str "x")][0]?.map Builder.getType
      = [Builder.empty][0]?.map Builder.getType :=
  ⟨(op_immutability (Op.setLabel (JsVal.str "x")) 0 [Builder.empty] 1
      [Builder.empty, Builder.empty.setLabel (JsVal.str "x")] rfl).1,
   ((op_immutability (Op.setLabel (JsVal.str "x")) 0 [Builder.empty] 1
      [Builder.empty, Builder.empty.setLabel (JsVal.str "x")] rfl).2 0 (by decide)).1⟩

/-- C9: `addSelectOption` realizes the select builder eagerly — its options
are computed at attachment time, with no provider, and the resulting snapshot
(plain data) is appended to `configuration.options`; the concrete example
stores exactly the one entry with value `true` and text "Yes", which appears
unchanged in the realized options object and which later operations on the
select builder do not affect. -/
theorem addSelectOption_eager_snapshot :
    (∀ (b opt b2 : Builder) (snap : Config),
        opt.getOptions none {} = Except.ok snap →
        b.addSelectOption opt = Except.ok b2 →
        b2.cfg.selOptions = some ((b.cfg.selOptions.getD []) ++ [snap])) ∧
    Builder.empty.addSelectOption yesOption = Except.ok bYes ∧
    bYes.cfg.selOptions = some [yesSnapshot] ∧
    (bYes.getOptions none {}).map Config.selOptions = Except.ok (some [yesSnapshot]) ∧
    ∀ (op : Op) (opt2 : Builder), applyOp op yesOption = Except.ok opt2 →
      bYes.cfg.selOptions = some [yesSnapshot] := by
  refine ⟨?_, rfl, rfl, rfl, fun op opt2 _ => rfl⟩
  intro b opt b2 snap hsnap h
  cases hfe : b.fieldBuilders.isEmpty with
  | false => simp [Builder.addSelectOption, hfe] at h
  | true =>
    rw [Builder.addSelectOption, hfe] at h
    rw [hsnap] at h
    simp only [Bool.not_true, Bool.false_eq_true, if_false, Bind.bind, Except.bind,
      pure, Except.pure, Except.ok.injEq] at h
    subst h
    simp [Builder.withCfg]

/-- C9 witness: attaching `yesOption` to the fresh builder appends exactly
its realized snapshot to the (previously absent) select-option list. -/
theorem addSelectOption_eager_snapshot_witness :
    bYes.cfg.selOptions = some ((Builder.empty.cfg.selOptions.getD []) ++ [yesSnapshot]) :=
  addSelectOption_eager_snapshot.1 Builder.empty yesOption bYes yesSnapshot rfl rfl

/-- When every child's realization succeeds, realizing the whole fields list
succeeds. -/
theorem realizeFields_ok_of_children (p : Option Provider) (d : Bool)
    (l : List (String × Builder))
    (h : ∀ pr ∈ l,
        (Builder.getOptions pr.2 p { disableTemplates := some d }).isOk = true) :
    (realizeFields p d l).isOk = true := by
  induction l with
  | nil => rfl
  | cons hd tl ih =>
    obtain ⟨k, c⟩ := hd
    have hc := h (k, c) (List.mem_cons_self _ _)
    cases hg : c.getOptions p { disableTemplates := some d } with
    | error e => rw [hg] at hc; simp [Except.isOk, Except.toBool] at hc
    | ok oc =>
      have ht := ih (fun pr hpr => h pr (List.mem_cons_of_mem _ hpr))
      cases hr : realizeFields p d tl with
      | error e => rw [hr] at ht; simp [Except.isOk, Except.toBool] at ht
      | ok ocs =>
        simp [realizeFields, hg, hr, Except.isOk, Except.toBool, Bind.bind, Except.bind,
          pure, Except.pure]

/-- C2: provided no child's own realization fails, `getOptions` fails with
the "template callback specified but no provider was set" error exactly when
all four conditions hold: no concrete factory in the options, a template
callback set, no resolved provider (argument, else own), and resolved
`disableTemplates` (config argument, else own flag) false. -/
theorem getOptions_provider_error_iff :
    ∀ (b : Builder) (ltpArg : Option Provider) (go : GOCfg),
      (∀ pr ∈ b.fieldBuilders,
          (Builder.getOptions pr.2 (ltpArg <|> b.lazyProvider)
            { disableTemplates := some (go.disableTemplates.getD b.disableT) }).isOk
            = true) →
      (b.getOptions ltpArg go = Except.error (JsError.thrown
          "A template callback function was specified, but no provider was set") ↔
        (b.cfg.scalars.factory = none ∧ b.tpCallback.isSome = true ∧
         (ltpArg <|> b.lazyProvider) = none ∧
         go.disableTemplates.getD b.disableT = false)) := by
  intro b ltpArg go hch
  cases b with
  | mk fbs isOpt tpc ltp tyC dfl cfg =>
    simp only [Builder.fieldBuilders_mk, Builder.lazyProvider_mk, Builder.disableT_mk,
      Builder.tpCallback_mk, Builder.cfg_mk] at hch ⊢
    rw [getOptions_mk]
    simp only []
    by_cases hcond : (!cfg.scalars.factory.isSome && tpc.isSome && (ltpArg <|> ltp).isNone
        && !go.disableTemplates.getD dfl) = true
    · rw [if_pos hcond]
      simp only [Bool.and_eq_true, Bool.not_eq_true', Bool.not_eq_true,
        Option.isNone_iff_eq_none] at hcond
      obtain ⟨⟨⟨hf, htp⟩, hpn⟩, hd⟩ := hcond
      constructor
      · intro _
        refine ⟨?_, htp, hpn, hd⟩
        cases hfact : cfg.scalars.factory with
        | none => rfl
        | some v => rw [hfact] at hf; simp at hf
      · intro _
        rfl
    · rw [if_neg hcond]
      constructor
      · intro habs
        have hok := realizeFields_ok_of_children (ltpArg <|> ltp)
          (go.disableTemplates.getD dfl) fbs hch
        cases hr : realizeFields (ltpArg <|> ltp) (go.disableTemplates.getD dfl) fbs with
        | error e => rw [hr] at hok; simp [Except.isOk, Except.toBool] at hok
        | ok flds =>
          rw [hr] at habs
          simp [Bind.bind, Except.bind, pure, Except.pure] at habs
      · rintro ⟨hf, htp, hpn, hd⟩
        exact absurd (by simp [hf, htp, hpn, hd]) hcond

/-- C2 witness: the callback-only builder, realized with no provider and an
empty config, fails with exactly the no-provider error, and all four
conditions hold there. -/
theorem getOptions_provider_error_iff_witness :
    cbOnly.getOptions none {} = Except.error (JsError.thrown
        "A template callback function was specified, but no provider was set") ↔
      (cbOnly.cfg.scalars.factory = none ∧ cbOnly.tpCallback.isSome = true ∧
       (none <|> cbOnly.lazyProvider) = none ∧
       (GOCfg.disableTemplates {}).getD cbOnly.disableT = false) :=
  getOptions_provider_error_iff cbOnly none {}
    (fun pr hpr => absurd hpr (List.not_mem_nil pr))

/-- Realization `getOptions` depends only on the resolved provider and the resolved
disable flag: passing them explicitly yields the same result. -/
theorem getOptions_resolved (b : Builder) (ltpArg : Option Provider) (go : GOCfg) :
    b.getOptions ltpArg go =
      b.getOptions (ltpArg <|> b.lazyProvider)
        { disableTemplates := some (go.disableTemplates.getD b.disableT) } := by
  cases b with
  | mk fbs isOpt tpc ltp tyC dfl cfg =>
    have hp : ((ltpArg <|> ltp) <|> ltp) = (ltpArg <|> ltp) := by
      cases ltpArg with
      | none => cases ltp <;> rfl
      | some x => rfl
    simp only [Builder.lazyProvider_mk, Builder.disableT_mk]
    rw [getOptions_mk, getOptions_mk]
    simp only [hp, Option.getD_some]

/-- A successful `realizeFields` realizes, for every stored key, exactly the
child's own `getOptions` under the propagated provider and disable flag. -/
theorem realizeFields_findVal (p : Option Provider) (d : Bool)
    (l : List (String × Builder)) (outl : List (String × Config)) (k : String)
    (c : Builder) (hreal : realizeFields p d l = Except.ok outl)
    (hfind : findVal l k = some c) :
    ∃ oc, c.getOptions p { disableTemplates := some d } = Except.ok oc ∧
      findVal outl k = some oc := by
  induction l generalizing outl with
  | nil => simp [findVal] at hfind
  | cons hd tl ih =>
    obtain ⟨k1, c1⟩ := hd
    cases hg : c1.getOptions p { disableTemplates := some d } with
    | error e => rw [realizeFields, hg] at hreal; simp [Bind.bind, Except.bind] at hreal
    | ok oc1 =>
      cases hr : realizeFields p d tl with
      | error e =>
        rw [realizeFields, hg, hr] at hreal
        simp [Bind.bind, Except.bind] at hreal
      | ok ocs =>
        rw [realizeFields, hg, hr] at hreal
        simp only [Bind.bind, Except.bind, pure, Except.pure, Except.ok.injEq] at hreal
        subst hreal
        by_cases hk : k1 = k
        · subst hk
          rw [findVal, if_pos rfl] at hfind
          cases hfind
          exact ⟨oc1, hg, by rw [findVal, if_pos rfl]⟩
        · rw [findVal, if_neg hk] at hfind
          obtain ⟨oc, hoc, hfo⟩ := ih ocs hr hfind
          exact ⟨oc, hoc, by rw [findVal, if_neg hk]; exact hfo⟩

/-- Any-depth provider propagation: when the root realization resolves its
provider to `P` and its disable flag to `d`, the realized options object
contains, at every field path, exactly the result of the sub-builder's own
`getOptions` invoked with that same `P` and `d`. -/
theorem getOptions_atPath :
    ∀ (path : List String) (b : Builder) (ltpArg : Option Provider) (go : GOCfg)
      (P : Provider) (d : Bool) (out : Config) (sub : Builder),
      (ltpArg <|> b.lazyProvider) = some P →
      go.disableTemplates.getD b.disableT = d →
      b.getOptions ltpArg go = Except.ok out →
      b.atPath path = some sub →
      ∃ subOut,
        sub.getOptions (some P) { disableTemplates := some d } = Except.ok subOut ∧
        out.atPath path = some subOut := by
  intro path
  induction path with
  | nil =>
    intro b ltpArg go P d out sub hp hd hok hsub
    rw [Builder.atPath] at hsub
    cases hsub
    refine ⟨out, ?_, rfl⟩
    rw [← hp, ← hd, ← getOptions_resolved]
    exact hok
  | cons k ks ih =>
    intro b ltpArg go P d out sub hp hd hok hsub
    rw [Builder.atPath] at hsub
    cases hfv : findVal b.fieldBuilders k with
    | none => rw [hfv] at hsub; simp at hsub
    | some c =>
      rw [hfv] at hsub
      simp only [] at hsub
      cases b with
      | mk fbs isOpt tpc ltp tyC dfl cfg =>
        simp only [Builder.lazyProvider_mk, Builder.disableT_mk] at hp hd
        simp only [Builder.fieldBuilders_mk] at hfv
        rw [getOptions_mk] at hok
        simp only [] at hok
        split at hok
        · simp at hok
        · cases hr : realizeFields (ltpArg <|> ltp) (go.disableTemplates.getD dfl) fbs with
          | error e => rw [hr] at hok; simp [Bind.bind, Except.bind] at hok
          | ok flds =>
            rw [hr] at hok
            simp only [Bind.bind, Except.bind, pure, Except.pure, Except.ok.injEq] at hok
            subst hok
            rw [hp, hd] at hr
            obtain ⟨oc, hoc, hfo⟩ := realizeFields_findVal (some P) d fbs flds k c hr hfv
            obtain ⟨subOut, hsubOk, hsubPath⟩ :=
              ih c (some P) { disableTemplates := some d } P d oc sub rfl rfl hoc hsub
            refine ⟨subOut, hsubOk, ?_⟩
            rw [Config.atPath]
            simp only [Config.fields_mk, hfo]
            exact hsubPath

/-- C7: registering a provider at the root and realizing with no arguments
delivers the provider to a field's template callback — the realized
`fields.f.factory` is the callback applied to the provider — and, in
general, the resolved provider and disable flag reach every descendant's
realization unchanged, at any depth. -/
theorem provider_propagation :
    (∀ (P : Provider) (cb : Option Provider → Factory),
        (do
          let root ← (Builder.empty.setLazyTemplateProvider P).setField "f"
            (Builder.empty.setLazyTemplateFactory cb)
          let out ← root.getOptions none {}
          pure ((findVal out.fields "f").map (fun c => c.scalars.factory)))
          = Except.ok (some (some (cb (some P))))) ∧
    ∀ (path : List String) (b : Builder) (ltpArg : Option Provider) (go : GOCfg)
      (P : Provider) (d : Bool) (out : Config) (sub : Builder),
      (ltpArg <|> b.lazyProvider) = some P →
      go.disableTemplates.getD b.disableT = d →
      b.getOptions ltpArg go = Except.ok out →
      b.atPath path = some sub →
      ∃ subOut,
        sub.getOptions (some P) { disableTemplates := some d } = Except.ok subOut ∧
        out.atPath path = some subOut :=
  ⟨fun _ _ => rfl, getOptions_atPath⟩

/-- C7 witness: realizing the two-level tree with root provider 41 yields,
at depth-2 path f.g, exactly the leaf's own realization under provider 41
with templates enabled. -/
theorem provider_propagation_witness :
    ∃ subOut,
      leafCB.getOptions (some 41) { disableTemplates := some false } = Except.ok subOut ∧
      rootOut.atPath ["f", "g"] = some subOut :=
  provider_propagation.2 ["f", "g"] rootB none {} 41 false rootOut leafCB rfl rfl rfl rfl

end TcombBuilder
